import Mathlib

/-!
Shallow embedding of the passw0rd protocol orchestrator
(protocol.go and models.go): versioned enrollment records, password
verification against the current epoch, and record migration across
epochs via update tokens.

Opaque types of the external cryptographic collaborator (phe-go) are
modelled by concrete carriers, and its operations are parameters of the
embedded functions. Go pointers become Option, Go maps become optional
association lists (a nil map is none; lookup on a nil map misses), and
Go (value, error) multi-returns become either Except, when the caller
only branches on the error, or an explicit pair of nilable components,
when both components can be nil independently. A nil-pointer
dereference is an explicit nilPanic outcome.
-/

/-- Opaque blob of an enrollment record, the external collaborator's
EnrollmentRecord pointer target, modelled as a list of integers. -/
abbrev Blob := List Int

/-- Derived key bytes; the Go nil byte slice is the empty list. -/
abbrev Key := List Int

/-- Opaque enrollment response of the external cryptographic collaborator. -/
abbrev PheEnrollmentResponse := Int

/-- Opaque verify-password request of the external cryptographic collaborator. -/
abbrev PheVerifyPasswordRequest := Int

/-- Opaque verify-password response of the external cryptographic collaborator. -/
abbrev PheVerifyPasswordResponse := Int

/-- Opaque update token of the external cryptographic collaborator. -/
abbrev PheUpdateToken := Int

/-- Go error values produced by the orchestrator: errors.New and
fmt.Errorf give msg, errors.Wrap of a non-nil error gives wrapped,
and ErrInvalidPassword is the sentinel invalidPassword. -/
inductive GoErr where
  | msg (s : String)
  | wrapped (inner : GoErr) (s : String)
  | invalidPassword
  deriving DecidableEq

/-- Model of errors.Wrap from the pkg/errors library used by the code:
wrapping a nil error yields a nil error. -/
def wrapErr (e : Option GoErr) (s : String) : Option GoErr :=
  e.map (fun x => GoErr.wrapped x s)

/-- Per-epoch cryptographic client of the external collaborator,
modelled by its three operations used in protocol.go. Each returns a
value-or-error in the Go style. -/
structure PheClient where
  enrollAccount : String → Option PheEnrollmentResponse → Except GoErr (Option Blob × Key)
  createVerifyPasswordRequest : String → Option Blob → Except GoErr PheVerifyPasswordRequest
  checkResponseAndDecrypt : String → Option Blob → Option PheVerifyPasswordResponse → Except GoErr Key

/-- Type of the collaborator's package-level UpdateRecord function used
by UpdateEnrollmentRecord: it transforms a record blob with a token. -/
abbrev UpdateRecordFn := Option Blob → PheUpdateToken → Except GoErr (Option Blob)

/-- models.go EnrollmentRequest. -/
structure EnrollmentRequest where
  version : Int
  deriving DecidableEq

/-- models.go EnrollmentResponse. -/
structure EnrollmentResponse where
  version : Int
  enrollment : Option PheEnrollmentResponse
  deriving DecidableEq

/-- models.go EnrollmentRecord: the versioned envelope. -/
structure EnrollmentRecord where
  version : Int
  enrollment : Option Blob
  deriving DecidableEq

/-- models.go VerifyPasswordRequest. -/
structure VerifyPasswordRequest where
  version : Int
  request : Option PheVerifyPasswordRequest
  deriving DecidableEq

/-- models.go VerifyPasswordResponse. -/
structure VerifyPasswordResponse where
  response : Option PheVerifyPasswordResponse
  deriving DecidableEq

/-- The remote verification endpoint (the APIClient collaborator),
modelled by its observable behaviour: each call returns a nilable
response pointer together with a nilable error, independently. -/
structure APIClient where
  getEnrollment : EnrollmentRequest → Option EnrollmentResponse × Option GoErr
  verifyPassword : VerifyPasswordRequest → Option VerifyPasswordResponse × Option GoErr

/-- Serialized enrollment-record bytes, by their decode class: the JSON
literal null (which unmarshals into a nil record pointer without
error), a well-formed envelope object, or bytes that fail to parse. -/
inductive RecBytes where
  | jsonNull
  | record (version : Int) (enrollment : Option Blob)
  | malformed (raw : String)
  deriving DecidableEq

/-- Model of json.Unmarshal into a record pointer: null decodes to a
nil pointer with no error, a well-formed envelope decodes to the
record, and anything else errors. -/
def unmarshalRecord : RecBytes → Except GoErr (Option EnrollmentRecord)
  | .jsonNull => .ok none
  | .record v e => .ok (some ⟨v, e⟩)
  | .malformed raw => .error (.msg ("invalid record bytes " ++ raw))

/-- Model of json.Marshal of an envelope; it does not fail on these
structs. -/
def marshalRecord (r : EnrollmentRecord) : RecBytes :=
  .record r.version r.enrollment

/-- protocol.go Protocol. The lazily-built APIClient handle is passed
to the operations explicitly; the sync.Once machinery is not modelled. -/
structure Protocol where
  appID : String
  pheClients : Option (List (Int × PheClient))
  updateTokens : Option (List (Int × PheUpdateToken))
  currentVersion : Int

/-- The Context consumed by NewProtocol. Its definition is not among
the given files; its fields are exactly those protocol.go reads:
AppId, PHEClients, UpdateTokens, Version. -/
structure Context where
  appId : String
  pheClients : Option (List (Int × PheClient))
  updateTokens : Option (List (Int × PheUpdateToken))
  version : Int

/-- Go map indexing with the ok flag: a nil map (none) always misses. -/
def mapLookup {α : Type} (m : Option (List (Int × α))) (k : Int) : Option α :=
  match m with
  | none => none
  | some l => (l.find? (fun kv => kv.1 == k)).map (fun kv => kv.2)

/-- protocol.go NewProtocol: rejects a nil context, an empty AppId, or
a nil PHEClients map. -/
def newProtocol (context : Option Context) : Except GoErr Protocol :=
  match context with
  | none => .error (.msg "invalid context")
  | some c =>
    if c.appId = "" then .error (.msg "invalid context")
    else
      match c.pheClients with
      | none => .error (.msg "invalid context")
      | some _ =>
        .ok { appID := c.appId, pheClients := c.pheClients,
              updateTokens := c.updateTokens, currentVersion := c.version }

/-- protocol.go getPHE. -/
def getPHE (p : Protocol) (version : Int) : Option PheClient :=
  mapLookup p.pheClients version

/-- protocol.go getToken; the explicit nil-map check of the source is
already the none case of mapLookup. -/
def getToken (p : Protocol) (version : Int) : Option PheUpdateToken :=
  mapLookup p.updateTokens version

/-- Outcome of VerifyPassword: the raw Go return pair (key, err) where
the nil key is the empty list, or a nil-pointer panic. -/
inductive VerifyOutcome where
  | ret (key : Key) (err : Option GoErr)
  | nilPanic
  deriving DecidableEq

/-- Outcome of UpdateEnrollmentRecord: the raw Go return pair
(newRecord, err), or a nil-pointer panic. -/
inductive UpdateOutcome where
  | ret (newRecord : Option RecBytes) (err : Option GoErr)
  | nilPanic
  deriving DecidableEq

/-- Outcome of EnrollAccount: the raw Go return triple
(enrollmentRecord, encryptionKey, err), or a nil-pointer panic. -/
inductive EnrollOutcome where
  | ret (enrollmentRecord : Option RecBytes) (encryptionKey : Key) (err : Option GoErr)
  | nilPanic
  deriving DecidableEq

/-- protocol.go EnrollAccount: request an enrollment for
CurrentVersion, look up the client for the version in the response,
enroll, and wrap the blob in an envelope tagged CurrentVersion. -/
def enrollAccount (p : Protocol) (api : APIClient) (password : String) : EnrollOutcome :=
  let req : EnrollmentRequest := ⟨p.currentVersion⟩
  match api.getEnrollment req with
  | (_, some e) => .ret none [] (some e)
  | (none, none) => .nilPanic
  | (some resp, none) =>
    match getPHE p resp.version with
    | none => .ret none [] (some (.msg ("unable to find keys for version " ++ toString resp.version)))
    | some phe =>
      match phe.enrollAccount password resp.enrollment with
      | .error e => .ret none [] (some (.wrapped e "could not enroll account"))
      | .ok (rec, key) =>
        let versionedRec : EnrollmentRecord := ⟨p.currentVersion, rec⟩
        .ret (some (marshalRecord versionedRec)) key none

/-- protocol.go VerifyPassword: decode, require the current version,
look up the client, build the request, call the service, then check
and decrypt; an empty decrypted key is ErrInvalidPassword. The service
branch mirrors the source exactly: on a nil response the nil transport
error is wrapped by wrapErr, and wrapping nil yields nil. -/
def verifyPassword (p : Protocol) (api : APIClient) (password : String)
    (enrollmentRecord : RecBytes) : VerifyOutcome :=
  match unmarshalRecord enrollmentRecord with
  | .error e => .ret [] (some e)
  | .ok none => .nilPanic
  | .ok (some rec) =>
    if rec.version ≠ p.currentVersion then
      .ret [] (some (.msg "version mismatch"))
    else
      match getPHE p rec.version with
      | none => .ret [] (some (.msg "unable to find keys corresponding to this record's version"))
      | some phe =>
        match phe.createVerifyPasswordRequest password rec.enrollment with
        | .error e => .ret [] (some (.wrapped e "could not create verify password request"))
        | .ok req =>
          let versionedReq : VerifyPasswordRequest := ⟨rec.version, some req⟩
          match api.verifyPassword versionedReq with
          | (none, me) => .ret [] (wrapErr me "error while requesting service")
          | (some _, some e) => .ret [] (wrapErr (some e) "error while requesting service")
          | (some resp, none) =>
            match phe.checkResponseAndDecrypt password rec.enrollment resp.response with
            | .error e => .ret [] (some (.wrapped e "error after requesting service"))
            | .ok key =>
              if key.length = 0 then .ret [] (some GoErr.invalidPassword)
              else .ret key none

/-- The migration loop of protocol.go UpdateEnrollmentRecord, with the
iteration count made an explicit Nat. Faithful to the source: each
step looks up the token for recVersion + 1 and applies upd to the
envelope's original enrollment blob, overwriting newRec with the
result; the blob passed to upd is never updated between steps. -/
def updateLoop (upd : UpdateRecordFn) (tokens : Option (List (Int × PheUpdateToken)))
    (enrollment : Option Blob) : Int → Option Blob → Nat → Except GoErr (Option Blob)
  | _, newRec, 0 => .ok newRec
  | recVersion, _, fuel + 1 =>
    match mapLookup tokens (recVersion + 1) with
    | none => .error (.msg "protocol does not contain token to update record to the current version")
    | some token =>
      match upd enrollment token with
      | .error e => .error e
      | .ok nr => updateLoop upd tokens enrollment (recVersion + 1) nr fuel

/-- protocol.go UpdateEnrollmentRecord: decode, return the input
unchanged at the current version, reject a greater version, otherwise
walk tokens up to CurrentVersion and re-serialize. The Go loop runs
while recVersion is below CurrentVersion, incrementing once per
iteration, hence exactly (CurrentVersion - rec.version).toNat times. -/
def updateEnrollmentRecord (p : Protocol) (upd : UpdateRecordFn)
    (oldRecord : RecBytes) : UpdateOutcome :=
  match unmarshalRecord oldRecord with
  | .error e => .ret none (some e)
  | .ok none => .nilPanic
  | .ok (some rec) =>
    if rec.version = p.currentVersion then .ret (some oldRecord) none
    else if rec.version > p.currentVersion then
      .ret none (some (.msg "record's version is greater than protocol's version"))
    else
      match updateLoop upd p.updateTokens rec.enrollment rec.version none
          ((p.currentVersion - rec.version).toNat) with
      | .error e => .ret none (some e)
      | .ok newRec => .ret (some (marshalRecord ⟨p.currentVersion, newRec⟩)) none

/-! Concrete fixtures used by closed theorems and witnesses. -/

/-- An update function that records the token it applied: appending the
token to the blob makes the application order observable. -/
def updAppend : UpdateRecordFn :=
  fun b t => .ok (some ((b.getD []) ++ [t]))

/-- An update function that always succeeds, returning the token as blob. -/
def updOk : UpdateRecordFn :=
  fun _ t => .ok (some [t])

/-- A stub cryptographic client: request building succeeds, decryption
yields an empty key. -/
def clientStub : PheClient :=
  { enrollAccount := fun _ _ => .ok (none, [])
    createVerifyPasswordRequest := fun _ _ => .ok 0
    checkResponseAndDecrypt := fun _ _ _ => .ok [] }

/-- A client whose enrollment yields blob 99 and key 7. -/
def clientEnroll : PheClient :=
  { enrollAccount := fun _ _ => .ok (some [99], [7])
    createVerifyPasswordRequest := fun _ _ => .ok 0
    checkResponseAndDecrypt := fun _ _ _ => .ok [] }

/-- Protocol at version 3 with tokens for epochs 2 and 3 and no clients. -/
def protoChain : Protocol :=
  { appID := "app", pheClients := some [], updateTokens := some [(2, 2), (3, 3)],
    currentVersion := 3 }

/-- Protocol at version 3 whose only client is the stub at epoch 3. -/
def protoStub : Protocol :=
  { appID := "app", pheClients := some [(3, clientStub)], updateTokens := none,
    currentVersion := 3 }

/-- Protocol at version 3 whose only client sits at epoch 2. -/
def protoRespVersion : Protocol :=
  { appID := "app", pheClients := some [(2, clientEnroll)], updateTokens := none,
    currentVersion := 3 }

/-- Protocol at version 3 with an empty client registry and only the
token for epoch 2 (the token for epoch 3 is missing). -/
def protoMissingTok : Protocol :=
  { appID := "app", pheClients := some [], updateTokens := some [(2, 2)],
    currentVersion := 3 }

/-- Protocol at version 3 with empty registries. -/
def protoEmpty : Protocol :=
  { appID := "app", pheClients := some [], updateTokens := none, currentVersion := 3 }

/-- A remote endpoint that answers every call with a nil response and a
nil error. -/
def apiNilNil : APIClient :=
  { getEnrollment := fun _ => (none, none)
    verifyPassword := fun _ => (none, none) }

/-- A remote endpoint whose enrollment response carries version 2. -/
def apiEchoV2 : APIClient :=
  { getEnrollment := fun _ => (some ⟨2, some 7⟩, none)
    verifyPassword := fun _ => (none, none) }

/-- A remote endpoint whose verification succeeds with a response. -/
def apiVerifyOk : APIClient :=
  { getEnrollment := fun _ => (none, none)
    verifyPassword := fun _ => (some ⟨some 5⟩, none) }

/-- Claim C1: the specification requires UpdateEnrollmentRecord to chain
the tokens, each transforming the previous step's output. The code
instead applies every token to the record's original blob: at version 1
with CurrentVersion 3 and tokens 2 and 3 present, the returned blob is
token 3 applied to the original blob (here the single element 3), while
the chained composition demanded by the claim would be the two-element
list 2, 3 — which updAppend indeed produces when fed the intermediate
blob. -/
theorem c1_code_bug :
    updateEnrollmentRecord protoChain updAppend (.record 1 (some [])) =
      .ret (some (.record 3 (some [3]))) none ∧
    updAppend (some [2]) 3 = .ok (some [2, 3]) ∧
    (.ret (some (.record 3 (some [3]))) none : UpdateOutcome) ≠
      .ret (some (.record 3 (some [2, 3]))) none := by
  refine ⟨rfl, rfl, by decide⟩

/-- Claim C2: the claim says VerifyPassword never returns neither a key
nor an error. When the remote endpoint delivers a nil verification
response with a nil transport error, the code wraps the nil error and
returns the pair (nil key, nil error): neither a key nor an error. -/
theorem c2_code_bug :
    verifyPassword protoStub apiNilNil "pw" (.record 3 (some [])) =
      .ret [] none := rfl

/-- Claim C3: the claim says every byte-string input yields a result or
an error and never crashes. The JSON literal null decodes to a nil
record pointer with no decode error, and both VerifyPassword and
UpdateEnrollmentRecord then dereference the nil pointer to read its
version field: a nil-pointer panic. -/
theorem c3_code_bug :
    verifyPassword protoStub apiNilNil "pw" RecBytes.jsonNull = .nilPanic ∧
    updateEnrollmentRecord protoStub updOk RecBytes.jsonNull = .nilPanic :=
  ⟨rfl, rfl⟩

/-- Claim C4 counterexample: a context with a non-empty app identity
and a present but empty client registry. The claim requires
construction to fail on an empty registry, but NewProtocol only
rejects a nil registry and succeeds here. -/
theorem c4_counterexample :
    newProtocol (some { appId := "app", pheClients := some [],
                        updateTokens := none, version := 1 }) =
      .ok { appID := "app", pheClients := some [],
            updateTokens := none, currentVersion := 1 } := rfl

/-- Claim C4 (amended): protocol construction succeeds exactly when a
context is present, its app identity is non-empty, and its client
registry is present (non-nil) — even if that registry is empty;
otherwise it fails with the invalid-context error. -/
theorem c4_newProtocol_success_iff (c : Option Context) :
    (∃ p, newProtocol c = Except.ok p) ↔
      (∃ ctx, c = some ctx ∧ ctx.appId ≠ "" ∧ ctx.pheClients ≠ none) := by
  cases c with
  | none => simp [newProtocol]
  | some ctx =>
    by_cases ha : ctx.appId = ""
    · simp [newProtocol, ha]
    · cases hc : ctx.pheClients with
      | none => simp [newProtocol, ha, hc]
      | some l => simp [newProtocol, ha, hc]

/-- Claim C6: verification of a well-formed record whose version
differs from CurrentVersion fails with the version-mismatch error,
for every password, every remote endpoint and every client registry:
the outcome does not depend on any of them, so no cryptographic
computation and no remote call can influence it. -/
theorem c6_version_mismatch (p : Protocol) (api : APIClient) (password : String)
    (v : Int) (e : Option Blob) (hv : v ≠ p.currentVersion) :
    verifyPassword p api password (.record v e) =
      .ret [] (some (.msg "version mismatch")) := by
  simp [verifyPassword, unmarshalRecord, hv]

/-- Claim C6 witness at version 1 against CurrentVersion 3. -/
theorem c6_witness :
    verifyPassword protoEmpty apiNilNil "pw" (.record 1 none) =
      .ret [] (some (.msg "version mismatch")) :=
  c6_version_mismatch protoEmpty apiNilNil "pw" 1 none (by decide)

/-- Claim C8: updating a well-formed record already at CurrentVersion
returns the input bytes unchanged with no error, for every protocol
and every update function: neither the token registry nor the update
transform can influence the outcome. -/
theorem c8_idempotent (p : Protocol) (upd : UpdateRecordFn) (e : Option Blob) :
    updateEnrollmentRecord p upd (.record p.currentVersion e) =
      .ret (some (.record p.currentVersion e)) none := by
  simp [updateEnrollmentRecord, unmarshalRecord]

/-- Claim C10: updating a well-formed record whose version strictly
exceeds CurrentVersion fails with the invalid-version error and
returns no record, for every protocol and every update function. -/
theorem c10_future_version (p : Protocol) (upd : UpdateRecordFn)
    (v : Int) (e : Option Blob) (hv : p.currentVersion < v) :
    updateEnrollmentRecord p upd (.record v e) =
      .ret none (some (.msg "record's version is greater than protocol's version")) := by
  have h1 : v ≠ p.currentVersion := by omega
  have h2 : v > p.currentVersion := hv
  simp [updateEnrollmentRecord, unmarshalRecord, h1, h2]

/-- Claim C10 witness at version 5 against CurrentVersion 3. -/
theorem c10_witness :
    updateEnrollmentRecord protoEmpty updOk (.record 5 none) =
      .ret none (some (.msg "record's version is greater than protocol's version")) :=
  c10_future_version protoEmpty updOk 5 none (by decide)

/-- Claim C5 counterexample: CurrentVersion is 3, the registry has a
client only for epoch 2, and the remote endpoint's enrollment response
carries version 2. The claim requires EnrollAccount to resolve the
client for CurrentVersion and fail because epoch 3 has none; the code
instead resolves the client for the response's version and succeeds,
returning an envelope tagged 3 wrapping the epoch-2 client's blob. -/
theorem c5_counterexample :
    getPHE protoRespVersion protoRespVersion.currentVersion = none ∧
    enrollAccount protoRespVersion apiEchoV2 "pw" =
      .ret (some (.record 3 (some [99]))) [7] none :=
  ⟨rfl, rfl⟩

/-- Claim C5 (amended): EnrollAccount requests the enrollment for
CurrentVersion, then resolves the cryptographic client for the version
carried in the server's response — failing with the keys-unavailable
error if that epoch's client is absent — and on success returns an
envelope whose version equals CurrentVersion wrapping the blob
computed by that client. -/
theorem c5_enroll_uses_response_version (p : Protocol) (api : APIClient)
    (password : String) (resp : EnrollmentResponse)
    (hresp : api.getEnrollment ⟨p.currentVersion⟩ = (some resp, none)) :
    (getPHE p resp.version = none →
      enrollAccount p api password =
        .ret none [] (some (.msg ("unable to find keys for version " ++ toString resp.version)))) ∧
    (∀ cl blob key, getPHE p resp.version = some cl →
      cl.enrollAccount password resp.enrollment = .ok (blob, key) →
      enrollAccount p api password =
        .ret (some (.record p.currentVersion blob)) key none) := by
  constructor
  · intro hnone
    simp [enrollAccount, hresp, hnone]
  · intro cl blob key hcl henroll
    simp [enrollAccount, hresp, hcl, henroll, marshalRecord]

/-- Claim C5 witness: the amended theorem applied at the
counterexample's concrete protocol and endpoint. -/
theorem c5_witness :
    enrollAccount protoRespVersion apiEchoV2 "pw" =
      .ret (some (.record 3 (some [99]))) [7] none :=
  (c5_enroll_uses_response_version protoRespVersion apiEchoV2 "pw" ⟨2, some 7⟩ rfl).2
    clientEnroll (some [99]) [7] rfl rfl

/-- Claim C7: once the record is at CurrentVersion, the client and
request are resolved, and the endpoint answers with a response and no
transport error, then a decryption that succeeds with an empty key
yields ErrInvalidPassword and no key, a decryption that succeeds with
a non-empty key is the only way a key is returned, and a decryption
failure yields a wrapped error that is distinct from
ErrInvalidPassword. -/
theorem c7_empty_key_invalid_password (p : Protocol) (api : APIClient)
    (password : String) (e : Option Blob) (cl : PheClient)
    (req : PheVerifyPasswordRequest) (resp : VerifyPasswordResponse)
    (hcl : getPHE p p.currentVersion = some cl)
    (hreq : cl.createVerifyPasswordRequest password e = .ok req)
    (hresp : api.verifyPassword ⟨p.currentVersion, some req⟩ = (some resp, none)) :
    (∀ k, cl.checkResponseAndDecrypt password e resp.response = .ok k →
      verifyPassword p api password (.record p.currentVersion e) =
        if k = [] then .ret [] (some GoErr.invalidPassword) else .ret k none) ∧
    (∀ err, cl.checkResponseAndDecrypt password e resp.response = .error err →
      verifyPassword p api password (.record p.currentVersion e) =
        .ret [] (some (.wrapped err "error after requesting service")) ∧
      GoErr.invalidPassword ≠ GoErr.wrapped err "error after requesting service") := by
  constructor
  · intro k hk
    simp [verifyPassword, unmarshalRecord, hcl, hreq, hresp, hk, List.length_eq_zero]
  · intro err herr
    refine ⟨?_, by simp⟩
    simp [verifyPassword, unmarshalRecord, hcl, hreq, hresp, herr]

/-- Claim C7 witness: the stub client decrypts to an empty key and
verification fails with ErrInvalidPassword. -/
theorem c7_witness :
    verifyPassword protoStub apiVerifyOk "pw" (.record 3 (some [1])) =
      .ret [] (some GoErr.invalidPassword) := by
  have h := (c7_empty_key_invalid_password protoStub apiVerifyOk "pw" (some [1])
      clientStub 0 ⟨some 5⟩ rfl rfl rfl).1 [] rfl
  simpa using h

/-- If some epoch within reach of the remaining fuel lacks a token and
the update transform never fails, the migration loop stops with the
missing-token error. -/
theorem updateLoop_missing (upd : UpdateRecordFn)
    (tokens : Option (List (Int × PheUpdateToken))) (e : Option Blob)
    (hupd : ∀ b t, ∃ b2, upd b t = .ok b2) (fuel : Nat) :
    ∀ (recVersion : Int) (newRec : Option Blob) (w : Int),
      recVersion < w → w ≤ recVersion + fuel → mapLookup tokens w = none →
      updateLoop upd tokens e recVersion newRec fuel =
        .error (.msg "protocol does not contain token to update record to the current version") := by
  induction fuel with
  | zero =>
    intro recVersion newRec w h1 h2 _
    omega
  | succ n ih =>
    intro recVersion newRec w h1 h2 hmiss
    by_cases hw : w = recVersion + 1
    · subst hw
      simp [updateLoop, hmiss]
    · cases htok : mapLookup tokens (recVersion + 1) with
      | none => simp [updateLoop, htok]
      | some t =>
        obtain ⟨b2, hb2⟩ := hupd e t
        simp [updateLoop, htok, hb2]
        exact ih (recVersion + 1) b2 w (by omega) (by omega) hmiss

/-- Claim C9: for a record below CurrentVersion, if any epoch in the
chain up to CurrentVersion lacks an update token (a nil token registry
included, since every lookup then misses), UpdateEnrollmentRecord
fails with the missing-token error and returns no record. The update
transform is assumed never to fail, matching the external interface
contract of a pure total token application. -/
theorem c9_missing_token (p : Protocol) (upd : UpdateRecordFn)
    (v : Int) (e : Option Blob) (w : Int)
    (hupd : ∀ b t, ∃ b2, upd b t = .ok b2)
    (hlt : v < p.currentVersion)
    (hw1 : v < w) (hw2 : w ≤ p.currentVersion)
    (hmiss : mapLookup p.updateTokens w = none) :
    updateEnrollmentRecord p upd (.record v e) =
      .ret none (some (.msg "protocol does not contain token to update record to the current version")) := by
  have h1 : v ≠ p.currentVersion := by omega
  have h2 : ¬ (v > p.currentVersion) := by omega
  have hloop := updateLoop_missing upd p.updateTokens e hupd
      ((p.currentVersion - v).toNat) v none w hw1 (by omega) hmiss
  simp [updateEnrollmentRecord, unmarshalRecord, h1, h2, hloop]

/-- Claim C9 witness: a version-1 record, CurrentVersion 3, and a token
registry holding only the token for epoch 2. -/
theorem c9_witness :
    updateEnrollmentRecord protoMissingTok updOk (.record 1 none) =
      .ret none (some (.msg "protocol does not contain token to update record to the current version")) :=
  c9_missing_token protoMissingTok updOk 1 none 3 (fun b t => ⟨some [t], rfl⟩)
    (by decide) (by decide) (by decide) rfl
